import Mathlib

/-!
Verification of the schema catalog of the house_tinder repository.

The repository is a set of TypeScript type declarations describing the JSON
request and response shapes of a real-estate listings API.  We embed the
catalog shallowly: JSON values become the inductive `JValue`, each TypeScript
interface becomes a `Shape` (a list of field specifications together with an
extensibility flag; an interface that extends `Record<string, unknown>` or one
of the envelope markers is extensible, an interface or inline object literal
without an index signature is closed), and each `const ... as const` value
list becomes a `List String`.  Field names, requiredness (absence of `?`),
value checks and extensibility flags are translated field-by-field from the
source files.
-/

/-- A JSON value.  Objects are association lists of key/value pairs, in the
order they appear on the wire. -/
inductive JValue where
  | null
  | bool (b : Bool)
  | num (n : Int)
  | str (s : String)
  | arr (xs : List JValue)
  | obj (fields : List (String × JValue))

/-- Look a key up in a JSON object payload (first binding wins). -/
def lookupKey : List (String × JValue) → String → Option JValue
  | [], _ => none
  | (k, v) :: rest, key => if k = key then some v else lookupKey rest key

/-- Does the payload carry the given key? -/
def hasKey (p : List (String × JValue)) (k : String) : Bool :=
  (lookupKey p k).isSome

/-- One declared field of a TypeScript interface: its name, whether it is
required (no `?` in the source), and the check its value must pass. -/
structure FieldSpec where
  name : String
  required : Bool
  check : JValue → Bool

/-- A TypeScript object type: its declared fields and whether it tolerates
fields outside the declared set (an index signature / marker inheritance). -/
structure Shape where
  fields : List FieldSpec
  extensible : Bool

/-- A single declared field is satisfied by the payload: if the key is
present its value passes the field's check, if it is absent the field must
be optional. -/
def fieldOk (p : List (String × JValue)) (f : FieldSpec) : Bool :=
  match lookupKey p f.name with
  | some v => f.check v
  | none => !f.required

/-- Is the key one of the shape's declared field names? -/
def declaredName (s : Shape) (k : String) : Bool :=
  s.fields.any fun f => f.name == k

/-- A payload structurally matches a shape: every declared field is
satisfied, and, unless the shape is extensible, every key of the payload is
a declared field name. -/
def Shape.accepts (s : Shape) (p : List (String × JValue)) : Bool :=
  s.fields.all (fieldOk p) && (s.extensible || p.all fun kv => declaredName s kv.1)

/-- The declared field names of a shape, in declaration order. -/
def fieldNames (s : Shape) : List String :=
  s.fields.map FieldSpec.name

/-- The check attached to a declared field name, if any. -/
def checkOfName (s : Shape) (name : String) : Option (JValue → Bool) :=
  (s.fields.find? fun f => f.name == name).map FieldSpec.check

/-- Value check: any JSON value (TypeScript `unknown`). -/
def isAny : JValue → Bool := fun _ => true

/-- Value check: a JSON number. -/
def isNum : JValue → Bool
  | .num _ => true
  | _ => false

/-- Value check: a JSON string. -/
def isStr : JValue → Bool
  | .str _ => true
  | _ => false

/-- Value check: a JSON boolean. -/
def isBool : JValue → Bool
  | .bool _ => true
  | _ => false

/-- Value check: the JSON `null`. -/
def isNull : JValue → Bool
  | .null => true
  | _ => false

/-- Value check for `T | null`. -/
def orNull (c : JValue → Bool) (v : JValue) : Bool :=
  isNull v || c v

/-- Value check for `string | null`, the most common field type. -/
def strOrNull : JValue → Bool :=
  orNull isStr

/-- Value check for an array whose elements all pass a check. -/
def isArrOf (c : JValue → Bool) : JValue → Bool
  | .arr xs => xs.all c
  | _ => false

/-- Value check for an object matching a shape. -/
def isObjShape (s : Shape) : JValue → Bool
  | .obj p => s.accepts p
  | _ => false

/-- Value check for `Record<string, T>`: an object whose keys are opaque
labels and whose values all pass a check. -/
def isObjAll (c : JValue → Bool) : JValue → Bool
  | .obj p => p.all fun kv => c kv.2
  | _ => false

/-- Value check for a single string literal type. -/
def isLit (s : String) : JValue → Bool
  | .str t => t == s
  | _ => false

/-- Value check for a union of string literals given by a runtime value
list. -/
def isEnum (vals : List String) : JValue → Bool
  | .str t => vals.contains t
  | _ => false

/-- Value check for a `[number, number]` tuple. -/
def isNumPair : JValue → Bool
  | .arr [a, b] => isNum a && isNum b
  | _ => false

/-- Value check: any JSON object (used where the source type is recursive,
`Partial<Listing>`, and the check is cut at one level). -/
def isAnyObj : JValue → Bool
  | .obj _ => true
  | _ => false

/-- Every key of the payload lies in the given declared-field set.  A closed
shape admits a payload only when this holds. -/
def keysWithin (fields : List String) (p : List (String × JValue)) : Bool :=
  p.all fun kv => decide (kv.1 ∈ fields)

/-- Modelled from the spec: the repository itself contains no decoder, so
the decode step for an extensible shape is taken from the spec's design
note — "known fields struct + sidecar map of unrecognized key→raw-value
pairs".  Decoding splits a payload into the bindings whose keys are declared
fields of the shape and the sidecar of unrecognized bindings. -/
def decodeShape (fields : List String) (p : List (String × JValue)) :
    List (String × JValue) × List (String × JValue) :=
  (p.filter fun kv => decide (kv.1 ∈ fields),
   p.filter fun kv => !decide (kv.1 ∈ fields))

/-- Modelled from the spec: re-encoding merges the known bindings with the
sidecar of unrecognized bindings, "merged back on re-encoding — never
silently dropped". -/
def encodeShape (d : List (String × JValue) × List (String × JValue)) :
    List (String × JValue) :=
  d.1 ++ d.2


/-!
Runtime value lists of the shared core (src index module) and the listings
module, copied verbatim from the `as const` arrays of the source.
-/

/-- The `AggregatesValues` array of the shared core, in source order. -/
def AggregatesValues : List String := [
  "class",
  "status",
  "lastStatus",
  "type",
  "listPrice",
  "map",
  "address.area",
  "address.city",
  "address.neighborhood",
  "address.district",
  "address.streetName",
  "address.majorIntersection",
  "address.zip",
  "address.state",
  "address.communityCode",
  "address.streetDirection",
  "permissions.displayPublic",
  "permissions.displayInternetEntireListing",
  "permissions.displayAddressOnInternet",
  "details.propertyType",
  "details.style",
  "detail.numBedrooms",
  "details.numBathrooms",
  "details.businessType",
  "details.businessSubType",
  "details.basement1",
  "details.basement2",
  "details.garage",
  "details.den",
  "details.sewer",
  "details.waterSource",
  "details.heating",
  "details.swimmingPool",
  "details.yearBuilt",
  "details.exteriorConstruction",
  "details.exteriorConstruction2",
  "details.sqft",
  "details.balcony",
  "details.driveway",
  "condominium.locker",
  "condominium.exposure",
  "condominium.ammenities",
  "condominium.pets",
  "condominium.parkingType",
  "condominium.stories",
  "condominium.propertyMgr",
  "condominium.condoCorp",
  "condominium.ensuiteLaundry",
  "nearby.ammenities",
  "office.brokerageName",
  "photoCount"]

/-- The `YesNoValues` array. -/
def YesNoValues : List String := ["Y", "N"]

/-- The `ClassValues` array. -/
def ClassValues : List String := ["condo", "residential", "commercial"]

/-- The `LastStatusValues` array. -/
def LastStatusValues : List String := [
  "Sus", "Exp", "Sld", "Ter", "Dft", "Lsd", "Sc", "Sce", "Lc", "Pc", "Ext", "New"]

/-- The `OperatorValues` array. -/
def OperatorValues : List String := ["AND", "OR"]

/-- The `SimilarSortByValues` array. -/
def SimilarSortByValues : List String := [
  "updatedOnDesc", "updatedOnAsc", "createdOnAsc", "createdOnDesc"]

/-- The `SortByValues` array. -/
def SortByValues : List String := [
  "createdOnDesc",
  "updatedOnDesc",
  "createdOnAsc",
  "distanceAsc",
  "distanceDesc",
  "updatedOnAsc",
  "soldDateAsc",
  "soldDateDesc",
  "soldPriceAsc",
  "soldPriceDesc",
  "sqftAsc",
  "sqftDesc",
  "listPriceAsc",
  "listPriceDesc",
  "bedsAsc",
  "bedsDesc",
  "bathsDesc",
  "bathsAsc",
  "yearBuiltDesc",
  "yearBuiltAsc",
  "random",
  "statusAscListDateAsc",
  "statusAscListDateDesc",
  "statusAscListPriceAsc",
  "statusAscListPriceDesc",
  "repliersUpdatedOnAsc",
  "repliersUpdatedOnDesc"]

/-- The `StatusValues` array. -/
def StatusValues : List String := ["A", "U"]

/-- The `TypeValues` array. -/
def TypeValues : List String := ["sale", "lease"]

/-- The `StreetDirectionValues` array of the listings module. -/
def StreetDirectionValues : List String := ["n", "e", "w", "s", ""]

/-- The `CoverImageValues` array of the listings module. -/
def CoverImageValues : List String := [
  "kitchen",
  "powder room",
  "ensuite",
  "family room",
  "exterior front",
  "backyard",
  "staircase",
  "primary bedroom",
  "laundry room",
  "office",
  "garage"]

/-!
The compile-time halves of the paired contracts.  In the source each type is
`typeof XValues[number]`, which the TypeScript compiler expands to the union
of the array's literal string types; we write that union out explicitly, so
that its agreement with the runtime array is a theorem rather than a
definition.
-/

/-- The compile-time `Status` type, the union the compiler derives. -/
def StatusTy (s : String) : Prop := s = "A" ∨ s = "U"

/-- The compile-time `Class` type. -/
def ClassTy (s : String) : Prop :=
  s = "condo" ∨ s = "residential" ∨ s = "commercial"

/-- The compile-time `LastStatus` type. -/
def LastStatusTy (s : String) : Prop :=
  s = "Sus" ∨ s = "Exp" ∨ s = "Sld" ∨ s = "Ter" ∨ s = "Dft" ∨ s = "Lsd" ∨
  s = "Sc" ∨ s = "Sce" ∨ s = "Lc" ∨ s = "Pc" ∨ s = "Ext" ∨ s = "New"

/-- The compile-time `SortBy` type. -/
def SortByTy (s : String) : Prop :=
  s = "createdOnDesc" ∨ s = "updatedOnDesc" ∨ s = "createdOnAsc" ∨
  s = "distanceAsc" ∨ s = "distanceDesc" ∨ s = "updatedOnAsc" ∨
  s = "soldDateAsc" ∨ s = "soldDateDesc" ∨ s = "soldPriceAsc" ∨
  s = "soldPriceDesc" ∨ s = "sqftAsc" ∨ s = "sqftDesc" ∨
  s = "listPriceAsc" ∨ s = "listPriceDesc" ∨ s = "bedsAsc" ∨
  s = "bedsDesc" ∨ s = "bathsDesc" ∨ s = "bathsAsc" ∨
  s = "yearBuiltDesc" ∨ s = "yearBuiltAsc" ∨ s = "random" ∨
  s = "statusAscListDateAsc" ∨ s = "statusAscListDateDesc" ∨
  s = "statusAscListPriceAsc" ∨ s = "statusAscListPriceDesc" ∨
  s = "repliersUpdatedOnAsc" ∨ s = "repliersUpdatedOnDesc"

/-- A required field specification (no `?` on the field in the source). -/
def req (n : String) (c : JValue → Bool) : FieldSpec := ⟨n, true, c⟩

/-- An optional field specification (`?` on the field in the source). -/
def opt (n : String) (c : JValue → Bool) : FieldSpec := ⟨n, false, c⟩

/-!
Shapes of the listings module (part of the source whose file name is
unknown; it declares Room, Bathroom, Timestamp, Condominium, OpenHouse,
Details, Address, Map, Listing, SearchRequest, SearchResponse and the
locations hierarchy).  Each `xShape` below is the `Shape` of the TypeScript
interface `X`; interfaces extending `Record<string, unknown>` (directly or
through an envelope marker) are extensible, the rest are closed.
-/

/-- The `Room` interface: seven optional fields, no index signature. -/
def roomShape : Shape :=
  ⟨[opt "description" (isStr),
    opt "features" (strOrNull),
    opt "features2" (strOrNull),
    opt "features3" (strOrNull),
    opt "length" (strOrNull),
    opt "width" (strOrNull),
    opt "level" (strOrNull)], false⟩

/-- The `Bathroom` interface. -/
def bathroomShape : Shape :=
  ⟨[opt "pieces" (isStr),
    opt "level" (isStr),
    opt "count" (isStr)], false⟩

/-- The `Timestamp` interface: thirteen optional timestamp fields, closed. -/
def timestampShape : Shape :=
  ⟨[opt "idxUpdated" (strOrNull),
    opt "listingUpdated" (strOrNull),
    opt "photosUpdated" (strOrNull),
    opt "conditionalExpiryDate" (strOrNull),
    opt "terminatedDate" (strOrNull),
    opt "suspendedDate" (strOrNull),
    opt "listingEntryDate" (strOrNull),
    opt "closedDate" (strOrNull),
    opt "unavailableDate" (strOrNull),
    opt "expiryDate" (strOrNull),
    opt "extensionEntryDate" (strOrNull),
    opt "possessionDate" (strOrNull),
    opt "repliersUpdatedOn" (isStr)], false⟩

/-- The inline `fees` object of `Condominium`. -/
def condominiumFeesShape : Shape :=
  ⟨[opt "cableIncl" (strOrNull),
    opt "heatIncl" (strOrNull),
    opt "hydroIncl" (strOrNull),
    opt "maintenance" (strOrNull),
    opt "parkingIncl" (strOrNull),
    opt "taxesIncl" (strOrNull),
    opt "waterIncl" (strOrNull)], false⟩

/-- The `Condominium` interface. -/
def condominiumShape : Shape :=
  ⟨[opt "ammenities" (isArrOf isStr),
    opt "buildingInsurance" (strOrNull),
    opt "condoCorp" (strOrNull),
    opt "condoCorpNum" (strOrNull),
    opt "exposure" (strOrNull),
    opt "lockerNumber" (isStr),
    opt "locker" (strOrNull),
    opt "parkingType" (strOrNull),
    opt "pets" (strOrNull),
    opt "propertyMgr" (strOrNull),
    opt "stories" (strOrNull),
    opt "fees" (isObjShape condominiumFeesShape),
    opt "lockerUnitNumber" (strOrNull),
    opt "ensuiteLaundry" (strOrNull),
    opt "sharesPercentage" (strOrNull),
    opt "lockerLevel" (strOrNull),
    opt "unitNumber" (strOrNull)], false⟩

/-- The `OpenHouse` interface. -/
def openHouseShape : Shape :=
  ⟨[opt "date" (isStr),
    opt "startTime" (isStr),
    opt "endTime" (isStr),
    opt "type" (strOrNull),
    opt "status" (strOrNull),
    opt "TZ" (strOrNull)], false⟩

/-- Value check for `YesNo | null`. -/
def yesNoOrNull : JValue → Bool :=
  orNull (isEnum YesNoValues)

/-- The `Details` interface.  It extends `Record<string, unknown>`, so it is
extensible; every declared field is optional. -/
def detailsShape : Shape :=
  ⟨[opt "airConditioning" (strOrNull),
    opt "basement1" (strOrNull),
    opt "basement2" (strOrNull),
    opt "centralVac" (strOrNull),
    opt "den" (yesNoOrNull),
    opt "description" (strOrNull),
    opt "elevator" (strOrNull),
    opt "exteriorConstruction1" (strOrNull),
    opt "exteriorConstruction2" (strOrNull),
    opt "extras" (strOrNull),
    opt "furnished" (strOrNull),
    opt "garage" (strOrNull),
    opt "heating" (strOrNull),
    opt "numBathrooms" (strOrNull),
    opt "numBathroomsPlus" (strOrNull),
    opt "numBedrooms" (strOrNull),
    opt "numBedroomsPlus" (strOrNull),
    opt "numFireplaces" (strOrNull),
    opt "numGarageSpaces" (strOrNull),
    opt "numParkingSpaces" (strOrNull),
    opt "numRooms" (strOrNull),
    opt "numRoomsPlus" (strOrNull),
    opt "patio" (strOrNull),
    opt "propertyType" (strOrNull),
    opt "sqft" (strOrNull),
    opt "style" (strOrNull),
    opt "swimmingPool" (strOrNull),
    opt "virtualTourUrl" (strOrNull),
    opt "yearBuilt" (strOrNull),
    opt "landAccessType" (strOrNull),
    opt "landSewer" (strOrNull),
    opt "viewType" (strOrNull),
    opt "zoningDescription" (strOrNull),
    opt "analyticsClick" (strOrNull),
    opt "moreInformationLink" (strOrNull),
    opt "alternateURLVideoLink" (strOrNull),
    opt "flooringType" (strOrNull),
    opt "foundationType" (strOrNull),
    opt "landscapeFeatures" (strOrNull),
    opt "fireProtection" (strOrNull),
    opt "roofMaterial" (strOrNull),
    opt "farmType" (strOrNull),
    opt "zoningType" (strOrNull),
    opt "businessType" (strOrNull),
    opt "businessSubType" (strOrNull),
    opt "landDisposition" (strOrNull),
    opt "storageType" (strOrNull),
    opt "constructionStyleSplitLevel" (strOrNull),
    opt "constructionStatus" (strOrNull),
    opt "loadingType" (strOrNull),
    opt "ceilingType" (strOrNull),
    opt "liveStreamEventURL" (strOrNull),
    opt "energuideRating" (strOrNull),
    opt "amperage" (strOrNull),
    opt "sewer" (strOrNull),
    opt "familyRoom" (yesNoOrNull),
    opt "zoning" (strOrNull),
    opt "driveway" (strOrNull),
    opt "leaseTerms" (strOrNull),
    opt "centralAirConditioning" (strOrNull),
    opt "certificationLevel" (strOrNull),
    opt "energyCertification" (strOrNull),
    opt "parkCostMonthly" (strOrNull),
    opt "commonElementsIncluded" (strOrNull),
    opt "greenPropertyInformationStatement" (strOrNull),
    opt "handicappedEquipped" (strOrNull),
    opt "laundryLevel" (strOrNull),
    opt "balcony" (strOrNull),
    opt "numKitchens" (strOrNull),
    opt "numKitchensPlus" (strOrNull),
    opt "sqftRange" (strOrNull),
    opt "numDrivewaySpaces" (strOrNull),
    opt "HOAFee" (strOrNull),
    opt "HOAFee2" (strOrNull),
    opt "HOAFee3" (strOrNull),
    opt "waterSource" (strOrNull),
    opt "livingAreaMeasurement" (strOrNull),
    opt "waterfront" (strOrNull),
    opt "bathrooms" (isObjAll (isObjShape bathroomShape)),
    opt "numBathroomsHalf" (strOrNull)], true⟩

/-- Value check for `StreetDirection | null`. -/
def streetDirectionOrNull : JValue → Bool :=
  orNull (isEnum StreetDirectionValues)

/-- The `Address` interface. -/
def addressShape : Shape :=
  ⟨[opt "area" (strOrNull),
    opt "city" (strOrNull),
    opt "country" (strOrNull),
    opt "district" (strOrNull),
    opt "majorIntersection" (strOrNull),
    opt "neighborhood" (strOrNull),
    opt "streetDirection" (streetDirectionOrNull),
    opt "streetName" (strOrNull),
    opt "streetNumber" (strOrNull),
    opt "streetSuffix" (strOrNull),
    opt "unitNumber" (strOrNull),
    opt "zip" (strOrNull),
    opt "state" (strOrNull),
    opt "communityCode" (strOrNull),
    opt "streetDirectionPrefix" (strOrNull)], false⟩

/-- The `Map` interface of the listings module: three required strings,
closed. -/
def mapShape : Shape :=
  ⟨[req "latitude" (isStr),
    req "longitude" (isStr),
    req "point" (isStr)], false⟩

/-- The inline `permissions` object of `Listing`. -/
def permissionsShape : Shape :=
  ⟨[opt "displayAddressOnInternet" (isEnum YesNoValues),
    opt "displayPublic" (isEnum YesNoValues),
    opt "displayInternetEntireListing" (isEnum YesNoValues)], false⟩

/-- The inline `lot` object of `Listing`. -/
def lotShape : Shape :=
  ⟨[opt "acres" (strOrNull),
    opt "depth" (strOrNull),
    opt "irregular" (strOrNull),
    opt "legalDescription" (strOrNull),
    opt "measurement" (strOrNull),
    opt "width" (strOrNull),
    opt "size" (strOrNull),
    opt "source" (strOrNull),
    opt "dimensionsSource" (strOrNull),
    opt "dimensions" (strOrNull),
    opt "squareFeet" (strOrNull),
    opt "features" (strOrNull),
    opt "taxLot" (strOrNull)], false⟩

/-- The inline `nearby` object of `Listing`. -/
def nearbyShape : Shape :=
  ⟨[opt "ammenities" (isArrOf isStr)], false⟩

/-- The inline `office` object of `Listing`. -/
def officeShape : Shape :=
  ⟨[opt "brokerageName" (isStr)], false⟩

/-- The inline `taxes` object of `Listing`. -/
def listingTaxesShape : Shape :=
  ⟨[opt "annualAmount" (strOrNull),
    opt "assessmentYear" (strOrNull)], false⟩

/-- The inline `photo` object of a `Listing` agent. -/
def agentPhotoShape : Shape :=
  ⟨[opt "small" (strOrNull),
    opt "large" (strOrNull),
    opt "updatedOn" (strOrNull)], false⟩

/-- The inline brokerage `address` object of a `Listing` agent. -/
def agentBrokerageAddressShape : Shape :=
  ⟨[opt "address1" (strOrNull),
    opt "address2" (strOrNull),
    opt "city" (strOrNull),
    opt "state" (strOrNull),
    opt "postal" (strOrNull),
    opt "country" (strOrNull)], false⟩

/-- The inline `brokerage` object of a `Listing` agent. -/
def agentBrokerageShape : Shape :=
  ⟨[opt "name" (isStr),
    opt "address" (isObjShape agentBrokerageAddressShape)], false⟩

/-- The element type of `Listing.agents`: it carries a
`[key: string]: unknown` index signature, so it is extensible. -/
def agentShape : Shape :=
  ⟨[opt "agentId" (strOrNull),
    opt "boardAgentId" (isStr),
    opt "officeId" (isStr),
    opt "updatedOn" (strOrNull),
    opt "name" (strOrNull),
    opt "board" (strOrNull),
    opt "boardOfficeId" (strOrNull),
    opt "position" (strOrNull),
    opt "email" (strOrNull),
    opt "phones" (isArrOf isStr),
    opt "social" (isArrOf isStr),
    opt "website" (strOrNull),
    opt "photo" (isObjShape agentPhotoShape),
    opt "brokerage" (isObjShape agentBrokerageShape)], true⟩

/-- The `Listing` interface.  It extends `Record<string, unknown>`, so it is
extensible; every declared field is optional.  The recursive
`comparables`/`history` fields (`Partial<Listing>[]`) are checked one level
deep, as arrays of objects. -/
def listingShape : Shape :=
  ⟨[opt "mlsNumber" (isStr),
    opt "resource" (isStr),
    opt "status" (isEnum StatusValues),
    opt "class" (isEnum ClassValues),
    opt "type" (isEnum TypeValues),
    opt "listPrice" (isStr),
    opt "listDate" (isStr),
    opt "lastStatus" (isEnum LastStatusValues),
    opt "soldPrice" (strOrNull),
    opt "soldDate" (strOrNull),
    opt "originalPrice" (isStr),
    opt "assignment" (strOrNull),
    opt "address" (isObjShape addressShape),
    opt "map" (isObjShape mapShape),
    opt "permissions" (isObjShape permissionsShape),
    opt "images" (isArrOf isStr),
    opt "photoCount" (isNum),
    opt "details" (isObjShape detailsShape),
    opt "daysOnMarket" (isStr),
    opt "occupancy" (strOrNull),
    opt "updatedOn" (strOrNull),
    opt "condominium" (isObjShape condominiumShape),
    opt "coopCompensation" (strOrNull),
    opt "lot" (isObjShape lotShape),
    opt "nearby" (isObjShape nearbyShape),
    opt "office" (isObjShape officeShape),
    opt "openHouse" (isObjAll (isObjShape openHouseShape)),
    opt "rooms" (isObjAll (isObjShape roomShape)),
    opt "taxes" (isObjShape listingTaxesShape),
    opt "timestamps" (isObjShape timestampShape),
    opt "agents" (isArrOf (isObjShape agentShape)),
    opt "duplicates" (isArrOf isStr),
    opt "boardId" (isNum),
    opt "comparables" (isArrOf isAnyObj),
    opt "history" (isArrOf isAnyObj)], true⟩

/-- Declared field names of `Listing`. -/
def ListingFields : List String := fieldNames listingShape

/-- Declared field names of `Details`. -/
def DetailsFields : List String := fieldNames detailsShape

/-- Declared field names of `Room`. -/
def RoomFields : List String := fieldNames roomShape

/-- Declared field names of `Map`. -/
def MapFields : List String := fieldNames mapShape

/-- Declared field names of `Timestamp`. -/
def TimestampFields : List String := fieldNames timestampShape

/-!
The `SearchRequest` / `SearchResponse` pair of the listings module.
-/

/-- The `ImageSearchValue` variant (`type: "text"`). -/
def imageSearchValueShape : Shape :=
  ⟨[req "type" (isLit "text"),
    req "boost" (isNum),
    req "value" (isStr)], false⟩

/-- The `ImageSearchUrl` variant (`type: "image"`). -/
def imageSearchUrlShape : Shape :=
  ⟨[req "type" (isLit "image"),
    req "boost" (isNum),
    req "url" (isStr)], false⟩

/-- The `ImageSearchItem` union. -/
def isImageSearchItem (v : JValue) : Bool :=
  isObjShape imageSearchValueShape v || isObjShape imageSearchUrlShape v

/-- The inline `body` object of `SearchRequest`. -/
def searchBodyShape : Shape :=
  ⟨[opt "imageSearchItems" (isArrOf isImageSearchItem)], false⟩

/-- The `SearchRequest` interface: every filter field optional, extensible
through `ApiRequest`.  `DateFormat` fields are template-literal strings and
are checked as strings. -/
def searchRequestShape : Shape :=
  ⟨[opt "agent" (isArrOf isStr),
    opt "aggregates" (isArrOf (isEnum AggregatesValues)),
    opt "aggregateStatistics" (isBool),
    opt "amenities" (isArrOf isStr),
    opt "area" (isStr),
    opt "balcony" (isArrOf isStr),
    opt "basement" (isArrOf isStr),
    opt "boardId" (isArrOf isNum),
    opt "brokerage" (isStr),
    opt "businessSubType" (isArrOf isStr),
    opt "businessType" (isArrOf isStr),
    opt "city" (isArrOf isStr),
    opt "class" (isArrOf (isEnum ClassValues)),
    opt "cluster" (isBool),
    opt "clusterFields" (isStr),
    opt "clusterLimit" (isNum),
    opt "clusterPrecision" (isNum),
    opt "clusterStatistics" (isBool),
    opt "coverImage" (isEnum CoverImageValues),
    opt "den" (isStr),
    opt "displayAddressOnInternet" (isEnum YesNoValues),
    opt "displayInternetEntireListing" (isEnum YesNoValues),
    opt "displayPublic" (isEnum YesNoValues),
    opt "district" (isArrOf isNum),
    opt "driveway" (isArrOf isStr),
    opt "exteriorConstruction" (isArrOf isStr),
    opt "fields" (isStr),
    opt "garage" (isArrOf isStr),
    opt "hasAgents" (isBool),
    opt "hasImages" (isBool),
    opt "heating" (isArrOf isStr),
    opt "lastStatus" (isArrOf (isEnum LastStatusValues)),
    opt "lat" (isStr),
    opt "listDate" (isStr),
    opt "listings" (isBool),
    opt "locker" (isArrOf isStr),
    opt "long" (isStr),
    opt "map" (isArrOf (isArrOf isNumPair)),
    opt "mapOperator" (isEnum OperatorValues),
    opt "maxBaths" (isNum),
    opt "maxBeds" (isNum),
    opt "maxBedrooms" (isNum),
    opt "maxBedsPlus" (isNum),
    opt "maxBedroomsPlus" (isNum),
    opt "maxBedroomsTotal" (isNum),
    opt "maxKitchens" (isNum),
    opt "maxListDate" (isStr),
    opt "maxMaintenanceFee" (isNum),
    opt "maxOpenHouseDate" (isStr),
    opt "maxPrice" (isNum),
    opt "maxRepliersUpdatedOn" (isStr),
    opt "maxSoldDate" (isStr),
    opt "maxSoldPrice" (isNum),
    opt "maxStreetNumber" (isNum),
    opt "maxSqft" (isNum),
    opt "maxTaxes" (isNum),
    opt "maxUnavailableDate" (isStr),
    opt "maxUpdatedOn" (isStr),
    opt "maxYearBuilt" (isNum),
    opt "minBaths" (isNum),
    opt "minBeds" (isNum),
    opt "minBedrooms" (isNum),
    opt "minBedsPlus" (isNum),
    opt "minBedroomsPlus" (isNum),
    opt "minBedroomsTotal" (isNum),
    opt "minGarageSpaces" (isNum),
    opt "minKitchens" (isNum),
    opt "minListDate" (isStr),
    opt "minOpenHouseDate" (isStr),
    opt "minParkingSpaces" (isNum),
    opt "minPrice" (isNum),
    opt "minRepliersUpdatedOn" (isStr),
    opt "minSoldDate" (isStr),
    opt "minSoldPrice" (isStr),
    opt "minSqft" (isNum),
    opt "minStreetNumber" (isNum),
    opt "minUnavailableDate" (isStr),
    opt "minUpdatedOn" (isStr),
    opt "minYearBuilt" (isStr),
    opt "mlsNumber" (isArrOf isStr),
    opt "neighborhood" (isArrOf isStr),
    opt "officeId" (isStr),
    opt "operator" (isEnum OperatorValues),
    opt "pageNum" (isNum),
    opt "propertyType" (isArrOf isStr),
    opt "radius" (isNum),
    opt "resultsPerPage" (isNum),
    opt "search" (isStr),
    opt "searchFields" (isStr),
    opt "sortBy" (isEnum SortByValues),
    opt "sqft" (isArrOf isStr),
    opt "statistics" (isStr),
    opt "status" (isArrOf (isEnum StatusValues)),
    opt "streetDirection" (isArrOf (isEnum StreetDirectionValues)),
    opt "streetName" (isStr),
    opt "streetNumber" (isStr),
    opt "streetSuffix" (isStr),
    opt "style" (isArrOf isStr),
    opt "swimmingPool" (isArrOf isStr),
    opt "type" (isArrOf (isEnum TypeValues)),
    opt "unitNumber" (isArrOf isStr),
    opt "updatedOn" (isStr),
    opt "waterSource" (isArrOf isStr),
    opt "repliersUpdatedOn" (isStr),
    opt "sewer" (isArrOf isStr),
    opt "state" (isStr),
    opt "waterfront" (isEnum YesNoValues),
    opt "yearBuilt" (isArrOf isStr),
    opt "zip" (isStr),
    opt "zoning" (isStr),
    opt "body" (isObjShape searchBodyShape)], true⟩

/-- Declared field names of `SearchRequest`. -/
def SearchRequestFields : List String := fieldNames searchRequestShape

/-- The deprecated-alias pairs of `SearchRequest`, read off the
`@deprecated use X field instead` doc comments of the source, in source
order: old field name paired with the newer field it aliases. -/
def SearchRequestDeprecatedAliases : List (String × String) :=
  [("maxBeds", "maxBedrooms"),
   ("maxBedsPlus", "maxBedroomsPlus"),
   ("minBeds", "minBedrooms"),
   ("minBedsPlus", "minBedroomsPlus")]

/-- The `{ count: number }` entry of the month/year count records. -/
def countEntryShape : Shape :=
  ⟨[req "count" (isNum)], false⟩

/-- The shape shared by `statistics.available`, `statistics.new` and
`statistics.closed`: a required count plus required month and year count
records. -/
def statusCountShape : Shape :=
  ⟨[req "count" (isNum),
    req "mth" (isObjAll (isObjShape countEntryShape)),
    req "yr" (isObjAll (isObjShape countEntryShape))], false⟩

/-- `RangeStat`: `Omit<BaseStat & { count: number }, "mth" | "yr">`. -/
def rangeStatShape : Shape :=
  ⟨[opt "avg" (isNum),
    opt "min" (isNum),
    opt "max" (isNum),
    opt "med" (isNum),
    opt "sd" (isNum),
    opt "sum" (isNum),
    req "count" (isNum)], false⟩

/-- The value type of `RollingPeriod`'s index signature. -/
def rollingEntryShape : Shape :=
  ⟨[req "count" (isNum),
    opt "avg" (isNum),
    opt "sum" (isNum),
    opt "med" (isNum),
    opt "min" (isNum),
    opt "max" (isNum),
    opt "sd" (isNum)], false⟩

/-- `RollingPeriod`: a string-keyed record of rolling entries. -/
def rollingPeriodCheck : JValue → Bool :=
  isObjAll (isObjShape rollingEntryShape)

/-- `Record<RollingPeriodName, RollingPeriod> & BaseStat`: the `BaseStat`
fields keep their types, `mth`/`yr` are records of `RangeStat`, and every
other key comes from the `grp-` template-literal pattern and maps to a
`RollingPeriod`. -/
def baseRollingStatCheck : JValue → Bool
  | .obj p => p.all fun kv =>
      if ["avg", "min", "max", "med", "sd", "sum"].contains kv.1 then isNum kv.2
      else if ["mth", "yr"].contains kv.1 then
        isObjAll (isObjShape rangeStatShape) kv.2
      else kv.1.startsWith "grp-" && rollingPeriodCheck kv.2
  | _ => false

/-- The month entry of `statistics.sqft`. -/
def sqftMonthShape : Shape :=
  ⟨[req "avgPriceLow" (isNum),
    req "avgPriceHigh" (isNum)], false⟩

/-- The `statistics.sqft` block. -/
def sqftStatShape : Shape :=
  ⟨[req "avgPriceLow" (isNum),
    req "avgPriceHigh" (isNum),
    opt "mth" (isObjAll (isObjShape sqftMonthShape))], false⟩

/-- The inline `statistics` object of `SearchResponse`: every member
optional, no index signature. -/
def statisticsShape : Shape :=
  ⟨[opt "available" (isObjShape statusCountShape),
    opt "new" (isObjShape statusCountShape),
    opt "closed" (isObjShape statusCountShape),
    opt "soldPrice" (baseRollingStatCheck),
    opt "listPrice" (baseRollingStatCheck),
    opt "daysOnMarket" (baseRollingStatCheck),
    opt "sqft" (isObjShape sqftStatShape)], false⟩

/-- The `SearchResponse` interface: the pagination envelope, the listings
sequence and the statistics block all appear without `?` in the source, so
all six members are required; the shape is extensible through
`ApiResponse`. -/
def searchResponseShape : Shape :=
  ⟨[req "page" (isNum),
    req "numPages" (isNum),
    req "pageSize" (isNum),
    req "count" (isNum),
    req "listings" (isArrOf (isObjShape listingShape)),
    req "statistics" (isObjShape statisticsShape)], true⟩

/-!
The locations hierarchy of the listings module.
-/

/-- The `Location` interface. -/
def locationShape : Shape :=
  ⟨[req "lat" (isNum),
    req "lng" (isNum)], false⟩

/-- `LocationCoordinates | null`: null or an array of polygons, each an
array of `[number, number]` pairs. -/
def coordinatesCheck (v : JValue) : Bool :=
  isNull v || isArrOf (isArrOf isNumPair) v

/-- The `Neighborhood` interface. -/
def neighborhoodShape : Shape :=
  ⟨[req "name" (isStr),
    req "activeCount" (isNum),
    req "location" (isObjShape locationShape),
    req "coordinates" (coordinatesCheck)], false⟩

/-- The `City` interface. -/
def cityShape : Shape :=
  ⟨[req "name" (isStr),
    req "activeCount" (isNum),
    req "location" (isObjShape locationShape),
    req "coordinates" (coordinatesCheck),
    req "state" (isStr),
    req "neighborhoods" (isArrOf (isObjShape neighborhoodShape))], false⟩

/-- The `Area` interface: a name and its cities, nothing else. -/
def areaShape : Shape :=
  ⟨[req "name" (isStr),
    req "cities" (isArrOf (isObjShape cityShape))], false⟩

/-- The `ClassWithAreas<Name>` interface: its `name` field is pinned to the
given class literal. -/
def classWithAreasShape (cname : String) : Shape :=
  ⟨[req "name" (isLit cname),
    req "areas" (isArrOf (isObjShape areaShape))], false⟩

/-- The `classes` member of a board: a three-tuple
`[ClassWithAreas<"condo">, ClassWithAreas<"residential">,
ClassWithAreas<"commercial">]`. -/
def classesCheck : JValue → Bool
  | .arr [c1, c2, c3] =>
      isObjShape (classWithAreasShape "condo") c1 &&
      isObjShape (classWithAreasShape "residential") c2 &&
      isObjShape (classWithAreasShape "commercial") c3
  | _ => false

/-- The board entry of `LocationsResponse.boards`. -/
def boardShape : Shape :=
  ⟨[req "boardId" (isNum),
    req "name" (isStr),
    req "updatedOn" (isStr),
    req "classes" (classesCheck)], false⟩

/-- The `boards` member: a one-tuple of board entries. -/
def boardsCheck : JValue → Bool
  | .arr [b] => isObjShape boardShape b
  | _ => false

/-- The `LocationsResponse` interface. -/
def locationsResponseShape : Shape :=
  ⟨[req "boards" (boardsCheck)], true⟩

/-!
The envelope markers of the shared core.  Each is an empty interface that
extends `Record<string, unknown>`: no declared fields, extensible.
-/

/-- The `ApiRequest` marker. -/
def apiRequestShape : Shape := ⟨[], true⟩

/-- The `ApiResponse` marker. -/
def apiResponseShape : Shape := ⟨[], true⟩

/-- The `ApiRequestBody` marker. -/
def apiRequestBodyShape : Shape := ⟨[], true⟩

/-!
Shapes of the estimate module (src/estimate.ts).
-/

/-- The inline `address` object of the estimate `AddRequest`. -/
def estimateAddressShape : Shape :=
  ⟨[req "city" (isStr),
    req "streetName" (isStr),
    req "streetNumber" (isStr),
    req "streetSuffix" (isStr),
    opt "unitNumber" (isStr),
    req "zip" (isStr)], false⟩

/-- The inline `fees` object of `AddCondominium`. -/
def estimateCondoFeesShape : Shape :=
  ⟨[opt "cableIncl" (isEnum YesNoValues),
    opt "heatIncl" (isEnum YesNoValues),
    opt "hydroIncl" (isEnum YesNoValues),
    opt "maintenance" (isNum),
    opt "parkingIncl" (isEnum YesNoValues),
    opt "taxesIncl" (isEnum YesNoValues),
    opt "waterIncl" (isEnum YesNoValues)], false⟩

/-- The `AddCondominium` interface of the estimate module. -/
def estimateCondominiumShape : Shape :=
  ⟨[opt "ammenities" (isArrOf isStr),
    opt "exposure" (isStr),
    opt "fees" (isObjShape estimateCondoFeesShape),
    opt "parkingType" (isStr),
    opt "pets" (isEnum ["N", "Restrict"]),
    opt "stories" (isNum)], false⟩

/-- The inline `details` object of the estimate `AddRequest`: `extras`,
`numBathrooms`, `numBedrooms`, `propertyType`, `sqft` and `style` appear
without `?` in the source and are required; the rest are optional. -/
def estimateDetailsShape : Shape :=
  ⟨[opt "basement1" (isStr),
    opt "basement2" (isStr),
    opt "driveway" (isStr),
    opt "exteriorConstruction1" (isStr),
    opt "exteriorConstruction2" (isStr),
    req "extras" (isStr),
    opt "garage" (isStr),
    opt "heating" (isStr),
    req "numBathrooms" (isNum),
    opt "numBathroomsPlus" (isNum),
    req "numBedrooms" (isNum),
    opt "numBedroomsPlus" (isNum),
    opt "numFireplaces" (isEnum YesNoValues),
    opt "numGarageSpaces" (isNum),
    opt "numParkingSpaces" (isNum),
    req "propertyType" (isStr),
    req "sqft" (isNum),
    req "style" (isStr),
    opt "swimmingPool" (isStr),
    opt "yearBuilt" (isStr)], false⟩

/-- The inline `lot` object of the estimate `AddRequest`. -/
def estimateLotShape : Shape :=
  ⟨[opt "acres" (isStr),
    opt "depth" (isNum),
    opt "width" (isNum)], false⟩

/-- The inline `taxes` object of the estimate `AddRequest`. -/
def estimateTaxesShape : Shape :=
  ⟨[req "annualAmount" (isNum)], false⟩

/-- The estimate `AddRequest` interface: every top-level member carries `?`
in the source, so all are optional; extensible through `ApiRequest`. -/
def estimateAddRequestShape : Shape :=
  ⟨[opt "clientId" (isNum),
    opt "boardId" (isNum),
    opt "address" (isObjShape estimateAddressShape),
    opt "condominium" (isObjShape estimateCondominiumShape),
    opt "details" (isObjShape estimateDetailsShape),
    opt "lot" (isObjShape estimateLotShape),
    opt "sendEmailNow" (isBool),
    opt "sendEmailMonthly" (isBool),
    opt "taxes" (isObjShape estimateTaxesShape)], true⟩

/-- The estimate `PatchRequest` interface:
`Omit<AddRequest, "boardId">` plus a required `estimateId`. -/
def estimatePatchRequestShape : Shape :=
  ⟨(estimateAddRequestShape.fields.filter fun f => f.name != "boardId") ++
    [req "estimateId" (isNum)], true⟩

/-!
Shapes of the searches module and the client record it projects.
-/

/-- The searches `CreateRequest` interface: `clientId`, `minPrice`,
`maxPrice` and `type` appear without `?` and are required. -/
def searchesCreateRequestShape : Shape :=
  ⟨[req "clientId" (isNum),
    opt "name" (isStr),
    opt "streetNumbers" (isArrOf isStr),
    opt "streetNames" (isArrOf isStr),
    opt "minBeds" (isNum),
    opt "maxBeds" (isNum),
    opt "maxMaintenanceFee" (isNum),
    opt "minBaths" (isNum),
    opt "maxBaths" (isNum),
    opt "areas" (isArrOf isStr),
    opt "cities" (isArrOf isStr),
    opt "neighborhoods" (isArrOf isStr),
    opt "notificationFrequency" (isEnum ["instant", "daily", "weekly", "monthly"]),
    req "minPrice" (isNum),
    req "maxPrice" (isNum),
    opt "propertyTypes" (isArrOf isStr),
    opt "styles" (isArrOf isStr),
    opt "map" (isStr),
    opt "status" (isBool),
    req "type" (isEnum TypeValues),
    opt "class" (isArrOf (isEnum ClassValues)),
    opt "minGarageSpaces" (isNum),
    opt "minKitchens" (isNum),
    opt "minParkingSpaces" (isNum),
    opt "basement" (isArrOf isStr),
    opt "soldNotifications" (isBool),
    opt "priceChangeNotifications" (isBool),
    opt "sewer" (isArrOf isStr),
    opt "waterSource" (isArrOf isStr),
    opt "heating" (isArrOf isStr),
    opt "swimmingPool" (isArrOf isStr)], true⟩

/-- `Pick<Clients.Client, "fname" | "lname" | "email" | "phone">`: the
embedded client projection of the searches `CreateResponse`. -/
def clientProjectionShape : Shape :=
  ⟨[req "fname" (isStr),
    req "lname" (isStr),
    req "email" (isStr),
    req "phone" (isStr)], false⟩

/-- The searches `CreateResponse` interface:
`ApiResponse` + `Omit<CreateRequest, "class">` plus generated `searchId`
and `agentId` and the embedded client projection. -/
def searchesCreateResponseShape : Shape :=
  ⟨(searchesCreateRequestShape.fields.filter fun f => f.name != "class") ++
    [req "searchId" (isNum),
     req "agentId" (isNum),
     req "client" (isObjShape clientProjectionShape)], true⟩

/-- The inline `preferences` object of `Client` (src/clients.ts). -/
def clientPreferencesShape : Shape :=
  ⟨[req "email" (isBool),
    req "sms" (isBool),
    req "unsubscribe" (isBool),
    req "whatsapp" (isBool)], false⟩

/-- The `Client` interface (src/clients.ts).  `lastActivity` and
`expiryDate` are typed `null | unknown` and admit anything; `searches` is
an intersection type involving `Omit<Searches.CreateResponse, "class">`
and is checked structurally; `externalId` is `string | null`. -/
def clientShape : Shape :=
  ⟨[req "clientId" (isNum),
    req "agentId" (isNum),
    req "fname" (isStr),
    req "lname" (isStr),
    req "phone" (isStr),
    req "email" (isStr),
    req "proxyEmail" (isStr),
    req "status" (isBool),
    req "lastActivity" (isAny),
    req "tags" (isStr),
    req "preferences" (isObjShape clientPreferencesShape),
    req "expiryDate" (isAny),
    opt "searches" (isAny),
    req "createdOn" (isStr),
    opt "estimates" (isArrOf isAnyObj),
    req "externalId" (strOrNull)], false⟩

/-- Declared field names of `Client`. -/
def ClientFields : List String := fieldNames clientShape

/-- Declared field names of the searches `CreateRequest`. -/
def SearchesCreateRequestFields : List String := fieldNames searchesCreateRequestShape

/-- Declared field names of the searches `CreateResponse`. -/
def SearchesCreateResponseFields : List String := fieldNames searchesCreateResponseShape

/-!
Shapes of the favorites module (the source file whose name is unknown that
declares the favorites CRUD envelopes).
-/

/-- The favorites `AddRequest` interface. -/
def favoritesAddRequestShape : Shape :=
  ⟨[req "clientId" (isNum),
    req "mlsNumber" (isStr),
    opt "boardId" (isNum)], true⟩

/-- The favorites `DeleteRequest` interface. -/
def favoritesDeleteRequestShape : Shape :=
  ⟨[req "favoriteId" (isNum)], true⟩

/-!
The declaration-level inheritance graph of the catalog: for each exported
interface, the names in its `extends` clause, as written in the source.
`RecordStringUnknown` stands for `Record<string, unknown>`; an `extends` of
an `Omit<X, ...>` type is recorded as an edge to `X` (the `Omit` removes
fields but keeps the heritage relevant to marker classification).
-/

/-- The direct `extends` clauses of every exported interface, per module. -/
def interfaceBases : List (String × List String) := [
  ("ApiRequest", ["RecordStringUnknown"]),
  ("ApiResponse", ["RecordStringUnknown"]),
  ("ApiRequestBody", ["RecordStringUnknown"]),
  ("Listings.Listing", ["RecordStringUnknown"]),
  ("Listings.Details", ["RecordStringUnknown"]),
  ("Listings.SearchRequest", ["ApiRequest"]),
  ("Listings.SearchResponse", ["ApiResponse"]),
  ("Listings.SimilarRequest", ["ApiRequest"]),
  ("Listings.SimilarResponse", ["ApiResponse"]),
  ("Listings.ListingRequest", ["ApiRequest"]),
  ("Listings.ListingResponse", ["ApiResponse", "Listings.Listing"]),
  ("Listings.LocationsRequest", ["ApiRequest"]),
  ("Listings.LocationsResponse", ["ApiResponse"]),
  ("Listings.NlpRequest", ["ApiRequest"]),
  ("Listings.NlpResponse", ["ApiResponse"]),
  ("Searches.CreateRequest", ["ApiRequest"]),
  ("Searches.CreateResponse", ["ApiResponse", "Searches.CreateRequest"]),
  ("Searches.UpdateRequest", ["ApiRequest"]),
  ("Searches.UpdateResponse", ["ApiResponse"]),
  ("Searches.FilterRequest", ["ApiRequest"]),
  ("Searches.FilterResponse", ["ApiResponse"]),
  ("Searches.DeleteRequest", ["ApiRequest"]),
  ("Searches.DeleteResponse", ["ApiResponse"]),
  ("Searches.GetRequest", ["ApiRequest"]),
  ("Searches.GetResponse", ["ApiResponse"]),
  ("Clients.CreateRequest", ["ApiRequest"]),
  ("Clients.CreateResponse", ["ApiResponse", "Clients.Client"]),
  ("Clients.UpdateRequest", ["Clients.CreateRequest", "ApiRequest"]),
  ("Clients.UpdateResponse", ["ApiResponse", "Clients.Client"]),
  ("Clients.DeleteResponse", ["ApiResponse"]),
  ("Clients.GetResponse", ["ApiResponse", "Clients.Client"]),
  ("Clients.FilterRequest", ["ApiRequest"]),
  ("Clients.FilterResponse", ["ApiResponse"]),
  ("Clients.GetTagsResponse", ["ApiResponse"]),
  ("Clients.RenameTagRequest", ["ApiRequest"]),
  ("Clients.RenameTagResponse", ["ApiResponse"]),
  ("Estimate.AddRequest", ["ApiRequest"]),
  ("Estimate.AddResponse", ["ApiResponse"]),
  ("Estimate.GetRequest", ["ApiRequest"]),
  ("Estimate.GetResponse", ["ApiRequest"]),
  ("Estimate.DeleteRequest", ["ApiRequest"]),
  ("Estimate.DeleteResponse", ["ApiRequest"]),
  ("Estimate.PatchRequest", ["Estimate.AddRequest"]),
  ("Estimate.PatchResponse", ["Estimate.GetResponse"]),
  ("Favorites.AddRequest", ["ApiRequest"]),
  ("Favorites.AddResponse", ["ApiResponse"]),
  ("Favorites.DeleteRequest", ["ApiRequest"]),
  ("Favorites.DeleteResponse", ["ApiResponse"]),
  ("Favorites.GetRequest", ["ApiRequest"]),
  ("Favorites.GetResponse", ["ApiResponse"]),
  ("Messages.SendRequest", ["ApiRequest"]),
  ("Messages.SendResponse", ["ApiResponse"])]

/-- The direct bases of an interface name. -/
def basesOf (n : String) : List String :=
  match interfaceBases.find? (fun e => e.1 == n) with
  | some e => e.2
  | none => []

/-- Fuelled reachability in the inheritance graph: does `src` extend `dst`,
directly or transitively (a name reaches itself)? -/
def reaches (fuel : Nat) (src dst : String) : Bool :=
  match fuel with
  | 0 => false
  | fuel + 1 => src == dst || (basesOf src).any fun b => reaches fuel b dst

/-- Every `*Response` interface of the catalog other than the three
mis-declared estimate ones. -/
def otherResponseNames : List String := [
  "Listings.SearchResponse",
  "Listings.SimilarResponse",
  "Listings.ListingResponse",
  "Listings.LocationsResponse",
  "Listings.NlpResponse",
  "Searches.CreateResponse",
  "Searches.UpdateResponse",
  "Searches.FilterResponse",
  "Searches.DeleteResponse",
  "Searches.GetResponse",
  "Clients.CreateResponse",
  "Clients.UpdateResponse",
  "Clients.DeleteResponse",
  "Clients.GetResponse",
  "Clients.GetTagsResponse",
  "Clients.RenameTagResponse",
  "Estimate.AddResponse",
  "Favorites.AddResponse",
  "Favorites.DeleteResponse",
  "Favorites.GetResponse",
  "Messages.SendResponse"]

/-!
The catalog shapes modelled above that inherit (directly or through a
marker) the `Record<string, unknown>` index signature, hence are
extensible.
-/

/-- The modelled marker-extending shapes of the catalog. -/
def markerShapes : List Shape := [
  apiRequestShape,
  apiResponseShape,
  apiRequestBodyShape,
  listingShape,
  detailsShape,
  searchRequestShape,
  searchResponseShape,
  locationsResponseShape,
  estimateAddRequestShape,
  estimatePatchRequestShape,
  searchesCreateRequestShape,
  searchesCreateResponseShape,
  favoritesAddRequestShape,
  favoritesDeleteRequestShape]

/-!
Modelled from the spec: the repository declares only shapes, so the
behaviour of "any consumer honoring both fields" of the deprecated bedroom
aliases is taken from the spec — each provided bound constrains the
listing's bedroom counts, and an old alias imposes exactly the constraint
of the field it aliases.
-/

/-- The bedroom-bound filters of a `SearchRequest`, in source order:
`maxBaths` and the rest are irrelevant to the alias claim and omitted.
Constructor argument order: maxBeds, maxBedrooms, maxBedsPlus,
maxBedroomsPlus, minBeds, minBedrooms, minBedsPlus, minBedroomsPlus. -/
structure BedFilters where
  maxBeds : Option Nat
  maxBedrooms : Option Nat
  maxBedsPlus : Option Nat
  maxBedroomsPlus : Option Nat
  minBeds : Option Nat
  minBedrooms : Option Nat
  minBedsPlus : Option Nat
  minBedroomsPlus : Option Nat

/-- An absent bound constrains nothing; a present upper bound caps the
value. -/
def optUpper (lim : Option Nat) (v : Nat) : Bool :=
  match lim with
  | none => true
  | some l => decide (v ≤ l)

/-- An absent bound constrains nothing; a present lower bound floors the
value. -/
def optLower (lim : Option Nat) (v : Nat) : Bool :=
  match lim with
  | none => true
  | some l => decide (l ≤ v)

/-- Modelled from the spec: a consumer honoring both the old and the new
field names applies every provided bound; `maxBeds`/`minBeds` constrain the
bedroom count exactly as `maxBedrooms`/`minBedrooms` do, and the `Plus`
aliases constrain the plus-bedroom count exactly as their newer
counterparts do. -/
def bedFiltersAccept (f : BedFilters) (beds bedsPlus : Nat) : Bool :=
  optUpper f.maxBeds beds && optUpper f.maxBedrooms beds &&
  optUpper f.maxBedsPlus bedsPlus && optUpper f.maxBedroomsPlus bedsPlus &&
  optLower f.minBeds beds && optLower f.minBedrooms beds &&
  optLower f.minBedsPlus bedsPlus && optLower f.minBedroomsPlus bedsPlus


/-!
Concrete payloads used when instantiating the claims below.
-/

/-- A `SearchResponse` payload carrying the pagination envelope and the
listings sequence but no `statistics` member. -/
def noStatisticsPayload : List (String × JValue) :=
  [("page", JValue.num 1),
   ("numPages", JValue.num 1),
   ("pageSize", JValue.num 10),
   ("count", JValue.num 0),
   ("listings", JValue.arr [])]

/-- A concrete estimate `details` block carrying exactly its required
members. -/
def sampleEstimateDetails : List (String × JValue) :=
  [("extras", JValue.str "corner lot"),
   ("numBathrooms", JValue.num 2),
   ("numBedrooms", JValue.num 3),
   ("propertyType", JValue.str "Detached"),
   ("sqft", JValue.num 1200),
   ("style", JValue.str "2-Storey")]

/-- A concrete estimate `address` block carrying exactly its required
members. -/
def sampleEstimateAddress : List (String × JValue) :=
  [("city", JValue.str "Toronto"),
   ("streetName", JValue.str "Main"),
   ("streetNumber", JValue.str "12"),
   ("streetSuffix", JValue.str "St"),
   ("zip", JValue.str "M4C 4X4")]

/-- A concrete estimate `AddRequest` payload with both blocks present. -/
def sampleEstimateAddPayload : List (String × JValue) :=
  [("address", JValue.obj sampleEstimateAddress),
   ("details", JValue.obj sampleEstimateDetails)]

/-- A concrete `LocationsResponse` payload: one board whose `classes`
member is the condo/residential/commercial three-tuple. -/
def sampleLocationsPayload : List (String × JValue) :=
  [("boards", JValue.arr
    [JValue.obj
      [("boardId", JValue.num 2),
       ("name", JValue.str "TRREB"),
       ("updatedOn", JValue.str "2020-01-01"),
       ("classes", JValue.arr
         [JValue.obj [("name", JValue.str "condo"), ("areas", JValue.arr [])],
          JValue.obj [("name", JValue.str "residential"), ("areas", JValue.arr [])],
          JValue.obj [("name", JValue.str "commercial"), ("areas", JValue.arr [])]])]])]

section GenericLemmas

/-- A payload accepted by a shape carries every required field. -/
theorem accepts_required_name (s : Shape) (p : List (String × JValue)) (name : String)
    (hs : s.accepts p = true)
    (h : (s.fields.any fun f => f.name == name && f.required) = true) :
    hasKey p name = true := by
  have hall : s.fields.all (fieldOk p) = true := (Bool.and_eq_true_iff.mp hs).1
  obtain ⟨f, hfmem, hfb⟩ := List.any_eq_true.mp h
  have hname : f.name = name := by
    have := (Bool.and_eq_true_iff.mp hfb).1
    exact eq_of_beq this
  have hreq : f.required = true := (Bool.and_eq_true_iff.mp hfb).2
  have hok : fieldOk p f = true := List.all_eq_true.mp hall f hfmem
  cases hl : lookupKey p f.name with
  | none =>
    simp [fieldOk, hl, hreq] at hok
  | some v =>
    rw [← hname]
    simp [hasKey, hl]

/-- A payload accepted by a shape has, on every present declared field, a
value passing that field's declared check. -/
theorem accepts_field_check (s : Shape) (p : List (String × JValue)) (name : String)
    (v : JValue) (c : JValue → Bool)
    (hs : s.accepts p = true)
    (hl : lookupKey p name = some v)
    (hf : checkOfName s name = some c) :
    c v = true := by
  have hall : s.fields.all (fieldOk p) = true := (Bool.and_eq_true_iff.mp hs).1
  cases hfind : s.fields.find? (fun f => f.name == name) with
  | none =>
    simp [checkOfName, hfind] at hf
  | some f =>
    have hc : f.check = c := by
      simp [checkOfName, hfind] at hf
      exact hf
    have hpf := List.find?_some hfind
    have hname : f.name = name := eq_of_beq (by simpa using hpf)
    have hfmem : f ∈ s.fields := List.mem_of_find?_eq_some hfind
    have hok : fieldOk p f = true := List.all_eq_true.mp hall f hfmem
    rw [← hc]
    simpa [fieldOk, hname, hl] using hok

/-- Appending a binding does not disturb earlier lookups of other keys. -/
theorem lookupKey_append (p q : List (String × JValue)) (n : String) :
    lookupKey (p ++ q) n =
      match lookupKey p n with
      | some v => some v
      | none => lookupKey q n := by
  induction p with
  | nil => simp [lookupKey]
  | cons a t ih =>
    by_cases h : a.1 = n
    · simp [lookupKey, h]
    · simpa [lookupKey, h] using ih

/-- An extensible shape keeps accepting after an unknown field is appended:
the inherited index signature means unknown top-level fields can never be
rejected. -/
theorem accepts_append_unknown (s : Shape) (p : List (String × JValue))
    (k : String) (v : JValue)
    (hext : s.extensible = true)
    (hp : s.accepts p = true)
    (hk : declaredName s k = false) :
    s.accepts (p ++ [(k, v)]) = true := by
  have hall : s.fields.all (fieldOk p) = true := (Bool.and_eq_true_iff.mp hp).1
  have hnames : ∀ f ∈ s.fields, f.name ≠ k := by
    intro f hf he
    have : declaredName s k = true :=
      List.any_eq_true.mpr ⟨f, hf, by simp [he]⟩
    rw [hk] at this
    exact Bool.false_ne_true this
  have hall' : s.fields.all (fieldOk (p ++ [(k, v)])) = true := by
    rw [List.all_eq_true] at hall ⊢
    intro f hf
    have hne : f.name ≠ k := hnames f hf
    have hlook : lookupKey (p ++ [(k, v)]) f.name = lookupKey p f.name := by
      rw [lookupKey_append]
      cases hl : lookupKey p f.name with
      | some w => rfl
      | none => simp [lookupKey, Ne.symm hne]
    have := hall f hf
    simpa [fieldOk, hlook] using this
  simp [Shape.accepts, hall', hext]

/-- A payload that carries a key outside the declared-field set fails the
closed-shape key test. -/
theorem keysWithin_false (fields : List String) (q : List (String × JValue))
    (k : String) (hq : hasKey q k = true) (hk : k ∉ fields) :
    keysWithin fields q = false := by
  induction q with
  | nil => simp [hasKey, lookupKey] at hq
  | cons a t ih =>
    have hstep : keysWithin fields (a :: t) =
        (decide (a.1 ∈ fields) && keysWithin fields t) := rfl
    by_cases hek : a.1 = k
    · have hdec : decide (a.1 ∈ fields) = false := by
        subst hek
        exact decide_eq_false hk
      rw [hstep, hdec, Bool.false_and]
    · have ht : hasKey t k = true := by
        simpa [hasKey, lookupKey, hek] using hq
      rw [hstep, ih ht, Bool.and_false]

end GenericLemmas

/-!
The claims.
-/

/-- C1.  For every JSON payload containing one recognized field and one
unrecognized field, decoding it as `Listing` or as `Details` and
re-encoding it yields a payload that still contains the unrecognized field
unchanged (`Listing` and `Details` are extensible), while the nested
sub-shapes `Room`, `Map` and `Timestamp` admit only their declared field
sets (they are closed): any payload carrying a key outside their declared
fields fails their key test. -/
theorem extensible_roundtrip_closed_subshapes
    (vr vu vdr vdu : JValue) (r u rd ud : String)
    (hr : r ∈ ListingFields) (hu : u ∉ ListingFields)
    (hrd : rd ∈ DetailsFields) (hud : ud ∉ DetailsFields)
    (q1 q2 q3 : List (String × JValue)) (k1 k2 k3 : String)
    (h1 : hasKey q1 k1 = true) (hk1 : k1 ∉ RoomFields)
    (h2 : hasKey q2 k2 = true) (hk2 : k2 ∉ MapFields)
    (h3 : hasKey q3 k3 = true) (hk3 : k3 ∉ TimestampFields) :
    encodeShape (decodeShape ListingFields [(r, vr), (u, vu)]) = [(r, vr), (u, vu)] ∧
    (decodeShape ListingFields [(r, vr), (u, vu)]).2 = [(u, vu)] ∧
    encodeShape (decodeShape DetailsFields [(rd, vdr), (ud, vdu)]) = [(rd, vdr), (ud, vdu)] ∧
    (decodeShape DetailsFields [(rd, vdr), (ud, vdu)]).2 = [(ud, vdu)] ∧
    keysWithin RoomFields q1 = false ∧
    keysWithin MapFields q2 = false ∧
    keysWithin TimestampFields q3 = false := by
  refine ⟨?_, ?_, ?_, ?_,
    keysWithin_false _ _ _ h1 hk1,
    keysWithin_false _ _ _ h2 hk2,
    keysWithin_false _ _ _ h3 hk3⟩ <;>
  simp [decodeShape, encodeShape, List.filter,
    decide_eq_true hr, decide_eq_false hu, decide_eq_true hrd, decide_eq_false hud]

/-- Witness for C1: the recognized `mlsNumber`/`sqft` fields and an
unrecognized provider field round-trip through the `Listing` and `Details`
decoders, and a payload with that provider field fails the `Room`, `Map`
and `Timestamp` key tests. -/
theorem extensible_roundtrip_closed_subshapes_witness :
    encodeShape (decodeShape ListingFields
        [("mlsNumber", JValue.str "N5182568"), ("providerField", JValue.str "x")]) =
      [("mlsNumber", JValue.str "N5182568"), ("providerField", JValue.str "x")] ∧
    (decodeShape ListingFields
        [("mlsNumber", JValue.str "N5182568"), ("providerField", JValue.str "x")]).2 =
      [("providerField", JValue.str "x")] ∧
    encodeShape (decodeShape DetailsFields
        [("sqft", JValue.str "1200"), ("providerField", JValue.str "x")]) =
      [("sqft", JValue.str "1200"), ("providerField", JValue.str "x")] ∧
    (decodeShape DetailsFields
        [("sqft", JValue.str "1200"), ("providerField", JValue.str "x")]).2 =
      [("providerField", JValue.str "x")] ∧
    keysWithin RoomFields [("providerField", JValue.null)] = false ∧
    keysWithin MapFields [("providerField", JValue.null)] = false ∧
    keysWithin TimestampFields [("providerField", JValue.null)] = false :=
  extensible_roundtrip_closed_subshapes
    (JValue.str "N5182568") (JValue.str "x") (JValue.str "1200") (JValue.str "x")
    "mlsNumber" "providerField" "sqft" "providerField"
    (by decide) (by decide) (by decide) (by decide)
    [("providerField", JValue.null)] [("providerField", JValue.null)]
    [("providerField", JValue.null)]
    "providerField" "providerField" "providerField"
    (by decide) (by decide) (by decide) (by decide) (by decide) (by decide)

/-- C2.  The closed value-sets have exactly the stated contents: `Status`
is the ordered list `["A", "U"]`, `Class` is
`["condo", "residential", "commercial"]`, `LastStatus` has exactly twelve
short codes and `SortBy` at least twenty-five sort orders; and for each of
these value-sets a string inhabits the compile-time literal-union type if
and only if it is a member of the runtime value list. -/
theorem value_sets_and_literal_types :
    StatusValues = ["A", "U"] ∧
    ClassValues = ["condo", "residential", "commercial"] ∧
    LastStatusValues.length = 12 ∧
    25 ≤ SortByValues.length ∧
    (∀ s : String, StatusTy s ↔ s ∈ StatusValues) ∧
    (∀ s : String, ClassTy s ↔ s ∈ ClassValues) ∧
    (∀ s : String, LastStatusTy s ↔ s ∈ LastStatusValues) ∧
    (∀ s : String, SortByTy s ↔ s ∈ SortByValues) := by
  refine ⟨rfl, rfl, rfl, by decide, ?_, ?_, ?_, ?_⟩ <;>
    intro s <;>
    simp [StatusTy, ClassTy, LastStatusTy, SortByTy,
      StatusValues, ClassValues, LastStatusValues, SortByValues]

/-- C3, counterexample.  The claim says exactly two fields of
`SearchRequest` are deprecated aliases, namely `maxBeds` and `maxBedsPlus`;
in the source `minBeds` and `minBedsPlus` carry the same
`@deprecated use ... instead` documentation, so the alias list has four
entries, not two. -/
theorem deprecated_aliases_not_exactly_two :
    ¬ (SearchRequestDeprecatedAliases.map Prod.fst = ["maxBeds", "maxBedsPlus"]) ∧
    ("minBeds", "minBedrooms") ∈ SearchRequestDeprecatedAliases ∧
    ("minBedsPlus", "minBedroomsPlus") ∈ SearchRequestDeprecatedAliases ∧
    SearchRequestDeprecatedAliases.length = 4 := by
  decide

/-- C3, amended.  Exactly four fields of `SearchRequest` are deprecated
aliases of newer fields — `maxBeds`→`maxBedrooms`,
`maxBedsPlus`→`maxBedroomsPlus`, `minBeds`→`minBedrooms`,
`minBedsPlus`→`minBedroomsPlus`; both the old and the new name are
accepted fields of `SearchRequest`, and a request using an old name with a
bound imposes exactly the same constraint as one using the new name with
that bound. -/
theorem deprecated_aliases_four_and_equivalent :
    SearchRequestDeprecatedAliases =
      [("maxBeds", "maxBedrooms"), ("maxBedsPlus", "maxBedroomsPlus"),
       ("minBeds", "minBedrooms"), ("minBedsPlus", "minBedroomsPlus")] ∧
    (SearchRequestDeprecatedAliases.all fun ab =>
      SearchRequestFields.contains ab.1 && SearchRequestFields.contains ab.2) = true ∧
    (∀ n beds bedsPlus : Nat,
      bedFiltersAccept ⟨some n, none, none, none, none, none, none, none⟩ beds bedsPlus =
        bedFiltersAccept ⟨none, some n, none, none, none, none, none, none⟩ beds bedsPlus ∧
      bedFiltersAccept ⟨none, none, some n, none, none, none, none, none⟩ beds bedsPlus =
        bedFiltersAccept ⟨none, none, none, some n, none, none, none, none⟩ beds bedsPlus ∧
      bedFiltersAccept ⟨none, none, none, none, some n, none, none, none⟩ beds bedsPlus =
        bedFiltersAccept ⟨none, none, none, none, none, some n, none, none⟩ beds bedsPlus ∧
      bedFiltersAccept ⟨none, none, none, none, none, none, some n, none⟩ beds bedsPlus =
        bedFiltersAccept ⟨none, none, none, none, none, none, none, some n⟩ beds bedsPlus) := by
  refine ⟨rfl, by decide, ?_⟩
  intro n beds bedsPlus
  refine ⟨?_, ?_, ?_, ?_⟩ <;>
    simp [bedFiltersAccept, optUpper, optLower]

/-- C4, counterexample.  The claim says a `SearchResponse` payload with the
pagination fields and listings but no `statistics` member matches the
shape; the source declares `statistics` without `?`, so the payload is
rejected. -/
theorem search_response_missing_statistics_rejected :
    searchResponseShape.accepts noStatisticsPayload = false := by
  decide

/-- C4, amended.  `SearchResponse` consists of required pagination fields
`page`, `numPages`, `pageSize`, `count`, a required sequence of `Listing`,
and a `statistics` aggregate block that is also required: every accepted
payload carries all six members, and the same payload becomes accepted
once a `statistics` member (even an empty object, as all its members are
optional) is added. -/
theorem search_response_statistics_required
    (p : List (String × JValue))
    (h : searchResponseShape.accepts p = true) :
    (hasKey p "statistics" = true ∧ hasKey p "page" = true ∧
     hasKey p "numPages" = true ∧ hasKey p "pageSize" = true ∧
     hasKey p "count" = true ∧ hasKey p "listings" = true) ∧
    searchResponseShape.accepts
      (noStatisticsPayload ++ [("statistics", JValue.obj [])]) = true := by
  refine ⟨⟨?_, ?_, ?_, ?_, ?_, ?_⟩, by decide⟩ <;>
    exact accepts_required_name searchResponseShape p _ h (by decide)

/-- Witness for the amended C4: the pagination-plus-listings payload with
an empty `statistics` object is accepted and carries all six required
members. -/
theorem search_response_statistics_required_witness :
    (hasKey (noStatisticsPayload ++ [("statistics", JValue.obj [])]) "statistics" = true ∧
     hasKey (noStatisticsPayload ++ [("statistics", JValue.obj [])]) "page" = true ∧
     hasKey (noStatisticsPayload ++ [("statistics", JValue.obj [])]) "numPages" = true ∧
     hasKey (noStatisticsPayload ++ [("statistics", JValue.obj [])]) "pageSize" = true ∧
     hasKey (noStatisticsPayload ++ [("statistics", JValue.obj [])]) "count" = true ∧
     hasKey (noStatisticsPayload ++ [("statistics", JValue.obj [])]) "listings" = true) ∧
    searchResponseShape.accepts
      (noStatisticsPayload ++ [("statistics", JValue.obj [])]) = true :=
  search_response_statistics_required
    (noStatisticsPayload ++ [("statistics", JValue.obj [])]) (by decide)

/-- C5.  The claim says every concrete response shape extends the response
marker `ApiResponse`, in particular the estimate group's `GetResponse`,
`DeleteResponse` and `PatchResponse`.  In the source those three extend the
request marker: `GetResponse` and `DeleteResponse` are declared
`extends ApiRequest` and `PatchResponse` extends `GetResponse`, while every
other `*Response` in the catalog (including the estimate `AddResponse`)
does reach `ApiResponse` — the three declarations are a slip. -/
theorem estimate_responses_extend_request_marker :
    reaches 5 "Estimate.GetResponse" "ApiResponse" = false ∧
    reaches 5 "Estimate.GetResponse" "ApiRequest" = true ∧
    reaches 5 "Estimate.DeleteResponse" "ApiResponse" = false ∧
    reaches 5 "Estimate.DeleteResponse" "ApiRequest" = true ∧
    reaches 5 "Estimate.PatchResponse" "ApiResponse" = false ∧
    reaches 5 "Estimate.PatchResponse" "ApiRequest" = true ∧
    (otherResponseNames.all fun n => reaches 5 n "ApiResponse") = true := by
  decide

/-- C6, counterexample.  The claim says a payload lacking the address,
bedroom count, bathroom count, sqft or propertyType does not match the
estimate `AddRequest` (or `PatchRequest`); in the source every top-level
member of `AddRequest` carries `?`, so the empty payload matches
`AddRequest`, and a payload holding only the required `estimateId` matches
`PatchRequest`, both without any of those facts. -/
theorem estimate_add_request_empty_accepted :
    estimateAddRequestShape.accepts [] = true ∧
    hasKey [] "address" = false ∧
    estimatePatchRequestShape.accepts [("estimateId", JValue.num 1)] = true ∧
    hasKey [("estimateId", JValue.num 1)] "address" = false := by
  decide

/-- C6, amended.  In the estimate `AddRequest` (and `PatchRequest`) the
top-level `address` and `details` blocks are themselves optional; it is
within a present `details` block that `numBedrooms`, `numBathrooms`,
`sqft` and `propertyType` (together with `style` and `extras`) are
required, and within a present `address` block that `city`, `streetName`,
`streetNumber`, `streetSuffix` and `zip` are required, while most other
detail fields are optional. -/
theorem estimate_add_required_within_blocks
    (p dp ap : List (String × JValue))
    (h : estimateAddRequestShape.accepts p = true)
    (hd : lookupKey p "details" = some (JValue.obj dp))
    (ha : lookupKey p "address" = some (JValue.obj ap)) :
    (hasKey dp "numBedrooms" = true ∧ hasKey dp "numBathrooms" = true ∧
     hasKey dp "sqft" = true ∧ hasKey dp "propertyType" = true ∧
     hasKey dp "style" = true ∧ hasKey dp "extras" = true) ∧
    (hasKey ap "city" = true ∧ hasKey ap "streetName" = true ∧
     hasKey ap "streetNumber" = true ∧ hasKey ap "streetSuffix" = true ∧
     hasKey ap "zip" = true) ∧
    estimateAddRequestShape.accepts [] = true ∧
    estimatePatchRequestShape.accepts [("estimateId", JValue.num 1)] = true := by
  have hdet : estimateDetailsShape.accepts dp = true :=
    accepts_field_check estimateAddRequestShape p "details" (JValue.obj dp)
      (isObjShape estimateDetailsShape) h hd rfl
  have haddr : estimateAddressShape.accepts ap = true :=
    accepts_field_check estimateAddRequestShape p "address" (JValue.obj ap)
      (isObjShape estimateAddressShape) h ha rfl
  refine ⟨⟨?_, ?_, ?_, ?_, ?_, ?_⟩, ⟨?_, ?_, ?_, ?_, ?_⟩, by decide, by decide⟩
  · exact accepts_required_name estimateDetailsShape dp _ hdet (by decide)
  · exact accepts_required_name estimateDetailsShape dp _ hdet (by decide)
  · exact accepts_required_name estimateDetailsShape dp _ hdet (by decide)
  · exact accepts_required_name estimateDetailsShape dp _ hdet (by decide)
  · exact accepts_required_name estimateDetailsShape dp _ hdet (by decide)
  · exact accepts_required_name estimateDetailsShape dp _ hdet (by decide)
  · exact accepts_required_name estimateAddressShape ap _ haddr (by decide)
  · exact accepts_required_name estimateAddressShape ap _ haddr (by decide)
  · exact accepts_required_name estimateAddressShape ap _ haddr (by decide)
  · exact accepts_required_name estimateAddressShape ap _ haddr (by decide)
  · exact accepts_required_name estimateAddressShape ap _ haddr (by decide)

/-- Witness for the amended C6: a concrete `AddRequest` payload whose
present `details` and `address` blocks carry their required members. -/
theorem estimate_add_required_within_blocks_witness :
    (hasKey sampleEstimateDetails "numBedrooms" = true ∧
     hasKey sampleEstimateDetails "numBathrooms" = true ∧
     hasKey sampleEstimateDetails "sqft" = true ∧
     hasKey sampleEstimateDetails "propertyType" = true ∧
     hasKey sampleEstimateDetails "style" = true ∧
     hasKey sampleEstimateDetails "extras" = true) ∧
    (hasKey sampleEstimateAddress "city" = true ∧
     hasKey sampleEstimateAddress "streetName" = true ∧
     hasKey sampleEstimateAddress "streetNumber" = true ∧
     hasKey sampleEstimateAddress "streetSuffix" = true ∧
     hasKey sampleEstimateAddress "zip" = true) ∧
    estimateAddRequestShape.accepts [] = true ∧
    estimatePatchRequestShape.accepts [("estimateId", JValue.num 1)] = true :=
  estimate_add_required_within_blocks
    sampleEstimateAddPayload sampleEstimateDetails sampleEstimateAddress
    (by decide) rfl rfl

/-- C7, counterexample.  The claim says every level of the
`LocationsResponse` hierarchy carries a count and optional polygon
coordinates; in the source the `Area` level declares only `name` and
`cities` (and `ClassWithAreas` only `name` and `areas`, the board entry
only `boardId`, `name`, `updatedOn` and `classes`), and being closed the
area level even rejects a payload that does carry an `activeCount`. -/
theorem locations_area_level_has_no_count :
    ("activeCount" ∉ fieldNames areaShape) ∧
    ("coordinates" ∉ fieldNames areaShape) ∧
    ("activeCount" ∉ fieldNames (classWithAreasShape "condo")) ∧
    ("coordinates" ∉ fieldNames (classWithAreasShape "condo")) ∧
    ("activeCount" ∉ fieldNames boardShape) ∧
    ("coordinates" ∉ fieldNames boardShape) ∧
    areaShape.accepts [("name", JValue.str "Peel"), ("cities", JValue.arr [])] = true ∧
    areaShape.accepts [("name", JValue.str "Peel"), ("cities", JValue.arr []),
      ("activeCount", JValue.num 3)] = false := by
  decide

/-- C7, amended.  `LocationsResponse` is a fixed hierarchy board → class →
area → city → neighborhood in which the class level contains exactly the
three classes condo, residential and commercial (any accepted class block
has its `name` pinned to its class literal, and the `classes` member is the
three-tuple of those blocks); the city and neighborhood levels each carry a
required `activeCount` and nullable polygon `coordinates`, while the board,
class and area levels do not. -/
theorem locations_hierarchy_counts_on_city_and_neighborhood
    (cp : List (String × JValue)) (cname : String) (v : JValue)
    (hc : (classWithAreasShape cname).accepts cp = true)
    (hv : lookupKey cp "name" = some v) :
    v = JValue.str cname ∧
    ("activeCount" ∈ fieldNames cityShape ∧ "coordinates" ∈ fieldNames cityShape ∧
     "activeCount" ∈ fieldNames neighborhoodShape ∧
     "coordinates" ∈ fieldNames neighborhoodShape) ∧
    ("activeCount" ∉ fieldNames areaShape ∧ "coordinates" ∉ fieldNames areaShape ∧
     "activeCount" ∉ fieldNames boardShape ∧ "coordinates" ∉ fieldNames boardShape) ∧
    ("boards" ∈ fieldNames locationsResponseShape ∧
     "classes" ∈ fieldNames boardShape ∧
     "areas" ∈ fieldNames (classWithAreasShape cname) ∧
     "cities" ∈ fieldNames areaShape ∧
     "neighborhoods" ∈ fieldNames cityShape) ∧
    locationsResponseShape.accepts sampleLocationsPayload = true := by
  have hlit : isLit cname v = true :=
    accepts_field_check (classWithAreasShape cname) cp "name" v (isLit cname) hc hv rfl
  refine ⟨?_, by decide, by decide, ⟨by decide, by decide, ?_, by decide, by decide⟩, by decide⟩
  · cases v with
    | str t =>
      have : t = cname := by simpa [isLit] using hlit
      rw [this]
    | null => simp [isLit] at hlit
    | bool b => simp [isLit] at hlit
    | num n => simp [isLit] at hlit
    | arr xs => simp [isLit] at hlit
    | obj fs => simp [isLit] at hlit
  · show "areas" ∈ fieldNames (classWithAreasShape cname)
    simp [fieldNames, classWithAreasShape, req]

/-- Witness for the amended C7: a concrete condo class block with its
`name` member. -/
theorem locations_hierarchy_counts_witness :
    JValue.str "condo" = JValue.str "condo" ∧
    ("activeCount" ∈ fieldNames cityShape ∧ "coordinates" ∈ fieldNames cityShape ∧
     "activeCount" ∈ fieldNames neighborhoodShape ∧
     "coordinates" ∈ fieldNames neighborhoodShape) ∧
    ("activeCount" ∉ fieldNames areaShape ∧ "coordinates" ∉ fieldNames areaShape ∧
     "activeCount" ∉ fieldNames boardShape ∧ "coordinates" ∉ fieldNames boardShape) ∧
    ("boards" ∈ fieldNames locationsResponseShape ∧
     "classes" ∈ fieldNames boardShape ∧
     "areas" ∈ fieldNames (classWithAreasShape "condo") ∧
     "cities" ∈ fieldNames areaShape ∧
     "neighborhoods" ∈ fieldNames cityShape) ∧
    locationsResponseShape.accepts sampleLocationsPayload = true :=
  locations_hierarchy_counts_on_city_and_neighborhood
    [("name", JValue.str "condo"), ("areas", JValue.arr [])] "condo"
    (JValue.str "condo") (by decide) rfl

/-- C8.  The runtime `AggregatesValues` list preserves the wire-format typo
verbatim: it contains the literal string `detail.numBedrooms` and does not
contain `details.numBedrooms`, while the bathrooms counterpart is spelled
`details.numBathrooms`. -/
theorem aggregates_typo_verbatim :
    ("detail.numBedrooms" ∈ AggregatesValues) ∧
    ("details.numBedrooms" ∉ AggregatesValues) ∧
    ("details.numBathrooms" ∈ AggregatesValues) := by
  decide

/-- C9, counterexample.  The claim says the searches `CreateResponse`
contains every field of the `CreateRequest` it echoes; in the source it
extends `Omit<CreateRequest, "class">`, so the `class` field of the
request is absent from the response's declared fields. -/
theorem create_response_omits_class :
    ("class" ∈ SearchesCreateRequestFields) ∧
    ("class" ∉ SearchesCreateResponseFields) := by
  decide

/-- C9, amended.  The searches `CreateResponse` contains every field of the
`CreateRequest` it echoes except `class` (omitted by
`Omit<CreateRequest, "class">`), augmented with the generated identifiers
`searchId` and `agentId` and with an embedded client projection that
contains exactly the client's `fname`, `lname`, `email` and `phone` fields
and no other `Client` fields. -/
theorem create_response_fields_except_class :
    ((SearchesCreateRequestFields.filter fun n => n != "class").all fun n =>
      SearchesCreateResponseFields.contains n) = true ∧
    SearchesCreateResponseFields.contains "searchId" = true ∧
    SearchesCreateResponseFields.contains "agentId" = true ∧
    SearchesCreateResponseFields.contains "client" = true ∧
    fieldNames clientProjectionShape = ["fname", "lname", "email", "phone"] ∧
    ((fieldNames clientProjectionShape).all fun n => ClientFields.contains n) = true ∧
    (ClientFields.filter fun n => (fieldNames clientProjectionShape).contains n) =
      ["fname", "lname", "phone", "email"] := by
  decide

/-- C10.  Every modelled request and response shape of the catalog accepts
arbitrary unknown top-level fields: the envelope markers `ApiRequest`,
`ApiResponse` and `ApiRequestBody` each extend `Record<string, unknown>`,
so every shape extending a marker is extensible and keeps accepting a
payload after an unknown field is appended — no such shape can reject an
unknown top-level field. -/
theorem marker_shapes_accept_unknown_fields
    (s : Shape) (p : List (String × JValue)) (k : String) (v : JValue)
    (hs : s ∈ markerShapes)
    (hp : s.accepts p = true)
    (hk : declaredName s k = false) :
    (apiRequestShape.extensible = true ∧ apiResponseShape.extensible = true ∧
     apiRequestBodyShape.extensible = true) ∧
    s.extensible = true ∧
    s.accepts (p ++ [(k, v)]) = true := by
  have hext : s.extensible = true := by
    have hall : (markerShapes.all fun sh => sh.extensible) = true := by decide
    exact List.all_eq_true.mp hall s hs
  exact ⟨⟨rfl, rfl, rfl⟩, hext, accepts_append_unknown s p k v hext hp hk⟩

/-- Witness for C10: the favorites `AddRequest` shape accepts its payload
with an unknown provider field appended. -/
theorem marker_shapes_accept_unknown_fields_witness :
    (apiRequestShape.extensible = true ∧ apiResponseShape.extensible = true ∧
     apiRequestBodyShape.extensible = true) ∧
    favoritesAddRequestShape.extensible = true ∧
    favoritesAddRequestShape.accepts
      ([("clientId", JValue.num 7), ("mlsNumber", JValue.str "W5182568")] ++
        [("unknownProviderField", JValue.str "x")]) = true :=
  marker_shapes_accept_unknown_fields favoritesAddRequestShape
    [("clientId", JValue.num 7), ("mlsNumber", JValue.str "W5182568")]
    "unknownProviderField" (JValue.str "x")
    (by unfold markerShapes; simp)
    (by decide) (by decide)
